import Mathlib

/-
Verification development for the financial-cycle accounting engine of the
budget application (src/unnamed/part_000 is the current App revision, with
src/App.tsx an older near-duplicate; src/components hold the view logic;
src/unnamed/part_004 holds the record types).

Dates: the JavaScript code works with Date objects carrying (year, month,
day-of-month) where month is 0..11, and with millisecond timestamps.  The
engine never inspects time-of-day: period starts are constructed at local
midnight, comparisons and toDateString based keys depend only on the
calendar day.  We therefore model a timestamp as a calendar date.
-/

structure Date where
  year : Int
  month : Nat
  day : Nat
deriving DecidableEq, Repr

/-- Lexicographic strict order on dates; for valid calendar dates this agrees
with the order of the JavaScript Date timeline. -/
def dateLt (a b : Date) : Prop :=
  a.year < b.year ∨ (a.year = b.year ∧ (a.month < b.month ∨ (a.month = b.month ∧ a.day < b.day)))

def dateLe (a b : Date) : Prop :=
  dateLt a b ∨ a = b

instance (a b : Date) : Decidable (dateLt a b) := by
  unfold dateLt; infer_instance

instance (a b : Date) : Decidable (dateLe a b) := by
  unfold dateLe; infer_instance

/-- Embedded from getFinancialMonthStart in src/App.tsx lines 240..251 and
src/unnamed/part_000 lines 318..329 (the same algorithm also appears as
getPeriodKey in src/components/History.tsx lines 66..80 and as
getFinancialMonthDate in the Reports component, src/components/FixedExpenses.tsx
lines 259..270): take the year and month of the date; if the day-of-month is
below the payday, step back one month, wrapping month 0 to month 11 of the
previous year; the period start is (year, month, payday). -/
def getFinancialMonthStart (date : Date) (payDay : Nat) : Date :=
  if date.day < payDay then
    if date.month = 0 then { year := date.year - 1, month := 11, day := payDay }
    else { year := date.year, month := date.month - 1, day := payDay }
  else { year := date.year, month := date.month, day := payDay }

/-- Embedded from the periodEnd computation (setMonth(getMonth() + 1)) used in
src/components/FixedExpenses.tsx lines 275..276 and History.tsx lines 95..96:
the period start advanced by exactly one calendar month.  For a day-of-month
up to 28 the JavaScript setMonth performs no overflow normalisation, so the
plain month increment is exact. -/
def periodEnd (start : Date) : Date :=
  if start.month = 11 then { year := start.year + 1, month := 0, day := start.day }
  else { year := start.year, month := start.month + 1, day := start.day }

/-
Data model, embedded from src/unnamed/part_004 (types.ts) together with the
income record used by src/unnamed/part_000.  JavaScript numbers are modelled
as exact rationals; identifier strings stay strings; ISO timestamp strings
stored in records are modelled by the calendar Date above.  The transaction
type field is the string union whose values are "in" and "out".
-/

inductive MoneySource where
  | bank
  | cash
deriving DecidableEq, Repr

structure AccountBalance where
  bank : ℚ
  cash : ℚ
deriving DecidableEq, Repr

/-- Reading the balance field selected by a money source, as in the computed
member access prev.balance[source]. -/
def AccountBalance.get (b : AccountBalance) : MoneySource → ℚ
  | MoneySource.bank => b.bank
  | MoneySource.cash => b.cash

/-- Writing the balance field selected by a money source, as in the computed
member update of the spread expression. -/
def AccountBalance.update (b : AccountBalance) : MoneySource → ℚ → AccountBalance
  | MoneySource.bank, v => { b with bank := v }
  | MoneySource.cash, v => { b with cash := v }

/-- The other balance pool, used to state frame conditions. -/
def MoneySource.other : MoneySource → MoneySource
  | MoneySource.bank => MoneySource.cash
  | MoneySource.cash => MoneySource.bank

structure FixedExpense where
  id : String
  name : String
  amount : ℚ
  isPaid : Bool
  source : MoneySource
  dueDate : Option Nat
deriving DecidableEq, Repr

structure Envelope where
  id : String
  name : String
  description : String
  allocated : ℚ
  targetAmount : ℚ
deriving DecidableEq, Repr

structure EnvelopeTransaction where
  id : String
  envelopeId : String
  type : String
  amount : ℚ
  date : Date
  note : String
deriving DecidableEq, Repr

structure ExpenseRecord where
  id : String
  amount : ℚ
  category : String
  date : Date
  source : MoneySource
  note : String
deriving DecidableEq, Repr

structure IncomeRecord where
  id : String
  amount : ℚ
  date : Date
  source : MoneySource
deriving DecidableEq, Repr

structure Category where
  id : String
  label : String
  color : String
deriving DecidableEq, Repr

structure Settings where
  payday : Nat
  lastResetDate : Date
deriving DecidableEq, Repr

structure AppState where
  balance : AccountBalance
  fixedExpenses : List FixedExpense
  envelopes : List Envelope
  envelopeTransactions : List EnvelopeTransaction
  expenses : List ExpenseRecord
  incomes : List IncomeRecord
  categories : List Category
  settings : Settings
deriving DecidableEq, Repr

/-
Mutation engine, embedded from the handlers of src/unnamed/part_000 (the
current App revision; the older src/App.tsx revision of editExpense and
deleteExpense omits the balance reconciliation and its History view cannot
edit records).  Calls to Date.now().toString() and new Date() are modelled by
explicit newId and now parameters (the clock is injected).  The
window.confirm guards are UI boundary concerns: the engine transition is the
state update performed once confirmed.
-/

/-- Embedded from addIncome, src/unnamed/part_000 lines 343..351. -/
def addIncome (s : AppState) (newId : String) (amount : ℚ) (source : MoneySource)
    (entryDate : Date) : AppState :=
  { s with
    balance := s.balance.update source (s.balance.get source + amount),
    incomes := { id := newId, amount := amount, date := entryDate, source := source } :: s.incomes }

/-- Embedded from editIncome, src/unnamed/part_000 lines 353..367: look up the
old record; if absent return the state unchanged; otherwise subtract the old
amount from the pool named by the old source, add the new amount to the pool
named by the new source, and replace the record fields. -/
def editIncome (s : AppState) (id : String) (amount : ℚ) (source : MoneySource)
    (date : Date) : AppState :=
  match s.incomes.find? (fun i => i.id == id) with
  | none => s
  | some oldIncome =>
    let bank1 := if oldIncome.source = MoneySource.bank then s.balance.bank - oldIncome.amount else s.balance.bank
    let cash1 := if oldIncome.source = MoneySource.bank then s.balance.cash else s.balance.cash - oldIncome.amount
    let bank2 := if source = MoneySource.bank then bank1 + amount else bank1
    let cash2 := if source = MoneySource.bank then cash1 else cash1 + amount
    { s with
      balance := { bank := bank2, cash := cash2 },
      incomes := s.incomes.map (fun i =>
        if i.id = id then { i with amount := amount, source := source, date := date } else i) }

/-- Embedded from deleteIncome, src/unnamed/part_000 lines 369..383. -/
def deleteIncome (s : AppState) (id : String) : AppState :=
  match s.incomes.find? (fun i => i.id == id) with
  | none => s
  | some inc =>
    let bank1 := if inc.source = MoneySource.bank then s.balance.bank - inc.amount else s.balance.bank
    let cash1 := if inc.source = MoneySource.bank then s.balance.cash else s.balance.cash - inc.amount
    { s with
      balance := { bank := bank1, cash := cash1 },
      incomes := s.incomes.filter (fun i => i.id != id) }

/-- Embedded from toggleFixed, src/unnamed/part_000 lines 385..400. -/
def toggleFixed (s : AppState) (id : String) : AppState :=
  match s.fixedExpenses.find? (fun e => e.id == id) with
  | none => s
  | some expense =>
    let willBePaid := !expense.isPaid
    let bank1 :=
      if willBePaid then
        if expense.source = MoneySource.bank then s.balance.bank - expense.amount else s.balance.bank
      else
        if expense.source = MoneySource.bank then s.balance.bank + expense.amount else s.balance.bank
    let cash1 :=
      if willBePaid then
        if expense.source = MoneySource.bank then s.balance.cash else s.balance.cash - expense.amount
      else
        if expense.source = MoneySource.bank then s.balance.cash else s.balance.cash + expense.amount
    { s with
      balance := { bank := bank1, cash := cash1 },
      fixedExpenses := s.fixedExpenses.map (fun f =>
        if f.id = id then { f with isPaid := willBePaid } else f) }

/-- Embedded from addFixed, src/unnamed/part_000 lines 401..403. -/
def addFixed (s : AppState) (newId : String) (name : String) (amount : ℚ)
    (source : MoneySource) (dueDate : Option Nat) : AppState :=
  { s with fixedExpenses := s.fixedExpenses ++
      [{ id := newId, name := name, amount := amount, isPaid := false, source := source, dueDate := dueDate }] }

/-- Embedded from editFixed, src/unnamed/part_000 lines 404..409. -/
def editFixed (s : AppState) (id : String) (name : String) (amount : ℚ)
    (source : MoneySource) (dueDate : Option Nat) : AppState :=
  { s with fixedExpenses := s.fixedExpenses.map (fun f =>
      if f.id = id then { f with name := name, amount := amount, source := source, dueDate := dueDate } else f) }

/-- Embedded from deleteFixed, src/unnamed/part_000 lines 410..412. -/
def deleteFixed (s : AppState) (id : String) : AppState :=
  { s with fixedExpenses := s.fixedExpenses.filter (fun f => f.id != id) }

/-- Embedded from resetFixed, src/unnamed/part_000 lines 413..415. -/
def resetFixed (s : AppState) : AppState :=
  { s with fixedExpenses := s.fixedExpenses.map (fun f => { f with isPaid := false }) }

/-- Embedded from addEnvelope, src/unnamed/part_000 lines 416..418. -/
def addEnvelope (s : AppState) (newId : String) (name : String) (description : String)
    (targetAmount : ℚ) : AppState :=
  { s with envelopes := s.envelopes ++
      [{ id := newId, name := name, description := description, allocated := 0, targetAmount := targetAmount }] }

/-- Embedded from editEnvelope, src/unnamed/part_000 lines 419..424: a direct
field overwrite, including allocated, with no balance change and no
transaction appended. -/
def editEnvelope (s : AppState) (id : String) (name : String) (description : String)
    (allocated : ℚ) (targetAmount : ℚ) : AppState :=
  { s with envelopes := s.envelopes.map (fun e =>
      if e.id = id then
        { e with name := name, description := description, allocated := allocated, targetAmount := targetAmount }
      else e) }

/-- Embedded from deleteEnvelope, src/unnamed/part_000 lines 425..431: the
refund is the allocated amount of the first envelope carrying the id (zero
when none does) and is always credited to the bank pool. -/
def deleteEnvelope (s : AppState) (id : String) : AppState :=
  let refund : ℚ :=
    match s.envelopes.find? (fun e => e.id == id) with
    | some env => env.allocated
    | none => 0
  { s with
    balance := { s.balance with bank := s.balance.bank + refund },
    envelopes := s.envelopes.filter (fun e => e.id != id) }

/-- Embedded from fundEnvelope, src/unnamed/part_000 lines 432..439: debit the
selected pool, add the amount to every envelope whose id matches, and append
an EnvelopeTransaction of type "in" with the fixed note Zasilenie.  There is
no lookup guard: the debit and the append happen even when no envelope
carries the id. -/
def fundEnvelope (s : AppState) (newId : String) (now : Date) (id : String)
    (amount : ℚ) (source : MoneySource) : AppState :=
  { s with
    balance := s.balance.update source (s.balance.get source - amount),
    envelopes := s.envelopes.map (fun e =>
      if e.id = id then { e with allocated := e.allocated + amount } else e),
    envelopeTransactions := s.envelopeTransactions ++
      [{ id := newId, envelopeId := id, type := "in", amount := amount, date := now, note := "Zasilenie" }] }

/-- Embedded from spendFromEnvelope, src/unnamed/part_000 lines 440..446:
subtract the amount from every envelope whose id matches (no floor) and
append an EnvelopeTransaction of type "out"; the balance pools are not
touched.  As with fundEnvelope there is no lookup guard for the append. -/
def spendFromEnvelope (s : AppState) (newId : String) (now : Date) (id : String)
    (amount : ℚ) (note : String) : AppState :=
  { s with
    envelopes := s.envelopes.map (fun e =>
      if e.id = id then { e with allocated := e.allocated - amount } else e),
    envelopeTransactions := s.envelopeTransactions ++
      [{ id := newId, envelopeId := id, type := "out", amount := amount, date := now, note := note }] }

/-- Embedded from addExpense, src/unnamed/part_000 lines 447..453 (identical
in src/App.tsx lines 330..336). -/
def addExpense (s : AppState) (newId : String) (now : Date) (amount : ℚ)
    (category : String) (note : String) (source : MoneySource) : AppState :=
  { s with
    balance := s.balance.update source (s.balance.get source - amount),
    expenses := { id := newId, amount := amount, category := category, date := now, source := source, note := note } :: s.expenses }

/-- Embedded from editExpense, src/unnamed/part_000 lines 454..468: look up
the old record; if absent return the state unchanged; otherwise credit the
pool named by the old source with the old amount, debit the pool named by the
new source by the new amount, and replace the amount, category, note and
source fields of the matching records. -/
def editExpense (s : AppState) (id : String) (amount : ℚ) (category : String)
    (note : String) (source : MoneySource) : AppState :=
  match s.expenses.find? (fun e => e.id == id) with
  | none => s
  | some oldExp =>
    let bank1 := if oldExp.source = MoneySource.bank then s.balance.bank + oldExp.amount else s.balance.bank
    let cash1 := if oldExp.source = MoneySource.bank then s.balance.cash else s.balance.cash + oldExp.amount
    let bank2 := if source = MoneySource.bank then bank1 - amount else bank1
    let cash2 := if source = MoneySource.bank then cash1 else cash1 - amount
    { s with
      balance := { bank := bank2, cash := cash2 },
      expenses := s.expenses.map (fun e =>
        if e.id = id then { e with amount := amount, category := category, note := note, source := source } else e) }

/-- Embedded from deleteExpense, src/unnamed/part_000 lines 469..484. -/
def deleteExpense (s : AppState) (id : String) : AppState :=
  match s.expenses.find? (fun e => e.id == id) with
  | none => s
  | some exp =>
    let bank1 := if exp.source = MoneySource.bank then s.balance.bank + exp.amount else s.balance.bank
    let cash1 := if exp.source = MoneySource.bank then s.balance.cash else s.balance.cash + exp.amount
    { s with
      balance := { bank := bank1, cash := cash1 },
      expenses := s.expenses.filter (fun e => e.id != id) }

/-- Embedded from updatePayday, src/unnamed/part_000 lines 489..491. -/
def updatePayday (s : AppState) (day : Nat) : AppState :=
  { s with settings := { s.settings with payday := day } }

/-- Embedded from the rollover effect, src/unnamed/part_000 lines 314..340
(identical in src/App.tsx lines 236..262): compute the period start of the
current date and of the stored lastResetDate under the current payday
(toDateString equality of the two constructed dates coincides with equality
of their calendar components); on mismatch clear every isPaid flag and store
the current date (not the period start) as lastResetDate; otherwise leave the
state untouched. -/
def runRollover (s : AppState) (now : Date) : AppState :=
  let payday := s.settings.payday
  let currentCycleStart := getFinancialMonthStart now payday
  let lastReset := getFinancialMonthStart s.settings.lastResetDate payday
  if currentCycleStart ≠ lastReset then
    { s with
      fixedExpenses := s.fixedExpenses.map (fun f => { f with isPaid := false }),
      settings := { s.settings with lastResetDate := now } }
  else s

/-
Aggregation: the Reports component (second half of
src/components/FixedExpenses.tsx, lines 246..470).  Its forecast uses
millisecond timestamps through getTime(); period starts are midnight dates,
and at day granularity Math.floor of the millisecond difference divided by
86400000 is exactly the difference of the civil day numbers, which we compute
with the standard days-from-civil conversion.
-/

/-- Civil day number of a calendar date (days since 1970-01-01, the JavaScript
epoch), months 0..11 as in getMonth(). -/
def civilToDays (dt : Date) : Int :=
  let m : Int := dt.month + 1
  let y : Int := if m ≤ 2 then dt.year - 1 else dt.year
  let era : Int := (if 0 ≤ y then y else y - 399) / 400
  let yoe : Int := y - era * 400
  let doy : Int := (153 * (m + (if 2 < m then -3 else 9)) + 2) / 5 + (dt.day : Int) - 1
  let doe : Int := yoe * 365 + yoe / 4 - yoe / 100 + doy
  era * 146097 + doe - 719468

/-- Embedded from the Reports component, src/components/FixedExpenses.tsx
line 274: currentPeriodStart = getFinancialMonthDate(now), the same
payday-anchored computation as getFinancialMonthStart. -/
def reportsPeriodStart (payday : Nat) (now : Date) : Date :=
  getFinancialMonthStart now payday

/-- Embedded from src/components/FixedExpenses.tsx lines 275..276:
currentPeriodEnd is the period start with the month advanced by one. -/
def reportsPeriodEnd (payday : Nat) (now : Date) : Date :=
  periodEnd (reportsPeriodStart payday now)

/-- Embedded from src/components/FixedExpenses.tsx lines 278..281: the
expenses whose date lies in the half-open current period. -/
def currentMonthExpenses (expenses : List ExpenseRecord) (payday : Nat) (now : Date) :
    List ExpenseRecord :=
  expenses.filter (fun e =>
    decide (dateLe (reportsPeriodStart payday now) e.date) &&
    decide (dateLt e.date (reportsPeriodEnd payday now)))

/-- Embedded from src/components/FixedExpenses.tsx line 283. -/
def totalCurrentMonth (expenses : List ExpenseRecord) (payday : Nat) (now : Date) : ℚ :=
  ((currentMonthExpenses expenses payday now).map (fun e => e.amount)).sum

/-- Embedded from src/components/FixedExpenses.tsx line 308: the floor of the
millisecond difference between now and the period start divided by one day,
plus one. -/
def daysSinceStart (payday : Nat) (now : Date) : Int :=
  civilToDays now - civilToDays (reportsPeriodStart payday now) + 1

/-- Embedded from src/components/FixedExpenses.tsx line 309: the fixed
nominal period length used by the forecast. -/
def daysInMonth : ℚ := 30

/-- Embedded from src/components/FixedExpenses.tsx line 310. -/
def dailyAverage (expenses : List ExpenseRecord) (payday : Nat) (now : Date) : ℚ :=
  if 0 < daysSinceStart payday now then
    totalCurrentMonth expenses payday now / (daysSinceStart payday now : ℚ)
  else 0

/-- Embedded from src/components/FixedExpenses.tsx line 311. -/
def projectedTotal (expenses : List ExpenseRecord) (payday : Nat) (now : Date) : ℚ :=
  dailyAverage expenses payday now * daysInMonth

/-
Formulas written from the spec wording, used to compare the embedded code
against the specified behaviour.
-/

/-- Spec formula (section 4.3): credit a pool, balance[src] += a. -/
def creditPool (b : AccountBalance) (src : MoneySource) (a : ℚ) : AccountBalance :=
  b.update src (b.get src + a)

/-- Spec formula (section 4.3): debit a pool, balance[src] -= a. -/
def debitPool (b : AccountBalance) (src : MoneySource) (a : ℚ) : AccountBalance :=
  b.update src (b.get src - a)

/-- Spec formula (section 4.5): projectedTotal = spentSoFar divided by
daysElapsedInPeriod, times the fixed nominal length 30. -/
def specLinearForecast (spentSoFar : ℚ) (daysElapsed : Int) : ℚ :=
  spentSoFar / (daysElapsed : ℚ) * 30

/-- Total money across the two pools and all envelope allocations. -/
def totalMoney (s : AppState) : ℚ :=
  s.balance.bank + s.balance.cash + (s.envelopes.map (fun e => e.allocated)).sum

/-
Concrete states and dates used by counterexamples and witnesses.
-/

def emptyState : AppState :=
  { balance := { bank := 0, cash := 0 },
    fixedExpenses := [],
    envelopes := [],
    envelopeTransactions := [],
    expenses := [],
    incomes := [],
    categories := [],
    settings := { payday := 1, lastResetDate := { year := 2024, month := 0, day := 1 } } }

def envState : AppState :=
  { balance := { bank := 100, cash := 0 },
    fixedExpenses := [],
    envelopes := [{ id := "e", name := "Wakacje", description := "", allocated := 40, targetAmount := 0 }],
    envelopeTransactions := [],
    expenses := [],
    incomes := [],
    categories := [],
    settings := { payday := 1, lastResetDate := { year := 2024, month := 0, day := 1 } } }

def dupState : AppState :=
  { balance := { bank := 10, cash := 0 },
    fixedExpenses := [],
    envelopes := [{ id := "e", name := "A", description := "", allocated := 0, targetAmount := 0 },
                  { id := "e", name := "B", description := "", allocated := 0, targetAmount := 0 }],
    envelopeTransactions := [],
    expenses := [],
    incomes := [],
    categories := [],
    settings := { payday := 1, lastResetDate := { year := 2024, month := 0, day := 1 } } }

def staleState : AppState :=
  { balance := { bank := 0, cash := 0 },
    fixedExpenses := [{ id := "1", name := "Czynsz", amount := 0, isPaid := true, source := MoneySource.bank, dueDate := none }],
    envelopes := [],
    envelopeTransactions := [],
    expenses := [],
    incomes := [],
    categories := [],
    settings := { payday := 1, lastResetDate := { year := 2023, month := 11, day := 15 } } }

def oneExpenseState : AppState :=
  { balance := { bank := 70, cash := 0 },
    fixedExpenses := [],
    envelopes := [],
    envelopeTransactions := [],
    expenses := [{ id := "x", amount := 30, category := "food", date := { year := 2024, month := 0, day := 5 }, source := MoneySource.bank, note := "" }],
    incomes := [],
    categories := [],
    settings := { payday := 1, lastResetDate := { year := 2024, month := 0, day := 1 } } }

def jan15 : Date := { year := 2024, month := 0, day := 15 }

def jan20 : Date := { year := 2024, month := 0, day := 20 }

/-
Helper lemmas.
-/

theorem map_eq_self_of_fix {α : Type} (l : List α) (f : α → α)
    (h : ∀ a ∈ l, f a = a) : l.map f = l := by
  induction l with
  | nil => rfl
  | cons x t ih =>
    have hx : f x = x := h x (List.mem_cons_self x t)
    have ht : t.map f = t := ih (fun a ha => h a (List.mem_cons_of_mem x ha))
    simp [hx, ht]

theorem find?_map_of_id_preserving {l : List Envelope} {id : String} {env : Envelope}
    (g : Envelope → Envelope) (hg : ∀ e, (g e).id = e.id)
    (h : l.find? (fun e => e.id == id) = some env) :
    (l.map g).find? (fun e => e.id == id) = some (g env) := by
  induction l with
  | nil => simp at h
  | cons x t ih =>
    by_cases hx : x.id = id
    · rw [List.find?_cons_of_pos _ (by simp [hx])] at h
      rw [List.map_cons, List.find?_cons_of_pos _ (by simp [hg, hx])]
      simp at h
      rw [h]
    · rw [List.find?_cons_of_neg _ (by simp [hx])] at h
      rw [List.map_cons, List.find?_cons_of_neg _ (by simp [hg, hx])]
      exact ih h

theorem alloc_sum_map_add (l : List Envelope) (id : String) (x : ℚ) :
    ((l.map (fun e => if e.id = id then { e with allocated := e.allocated + x } else e)).map
        (fun e => e.allocated)).sum
      = (l.map (fun e => e.allocated)).sum + (l.countP (fun e => e.id == id) : ℚ) * x := by
  induction l with
  | nil => simp
  | cons e t ih =>
    by_cases he : e.id = id
    · simp only [List.map_cons, if_pos he, List.sum_cons, ih, List.countP_cons, he]
      simp
      ring
    · simp only [List.map_cons, if_neg he, List.sum_cons, ih, List.countP_cons]
      simp [he]
      ring

/-- Rollover is a no-op whenever the period key of the current date matches
the period key of the stored lastResetDate. -/
theorem runRollover_noop (t : AppState) (now : Date)
    (h : getFinancialMonthStart now t.settings.payday
        = getFinancialMonthStart t.settings.lastResetDate t.settings.payday) :
    runRollover t now = t := by
  simp [runRollover, h]

/-
Claim theorems.
-/

/-- C1: for every payday in 1..28 and every valid date d, the period start
computed by getFinancialMonthStart satisfies
periodStart(d) ≤ d < periodEnd(periodStart(d)), where periodEnd advances the
start by exactly one calendar month. -/
theorem period_start_bounds (payday : Nat) (d : Date)
    (hp1 : 1 ≤ payday) (hp28 : payday ≤ 28)
    (hm : d.month ≤ 11) (hd1 : 1 ≤ d.day) (hd31 : d.day ≤ 31) :
    dateLe (getFinancialMonthStart d payday) d ∧
    dateLt d (periodEnd (getFinancialMonthStart d payday)) := by
  obtain ⟨y, m, dd⟩ := d
  simp only [getFinancialMonthStart, periodEnd, dateLe, dateLt, Date.mk.injEq] at *
  split_ifs <;> simp_all <;> omega

/-- Witness for C1 at payday 10 and the date 2024-01-05 (month index 0),
matching the scenario of the spec: the period start is 2023-12-10. -/
theorem period_start_bounds_witness :
    (1 ≤ 10 ∧ 10 ≤ 28 ∧ (5 : Nat) ≤ 31) ∧
    (dateLe (getFinancialMonthStart { year := 2024, month := 0, day := 5 } 10)
        { year := 2024, month := 0, day := 5 } ∧
      dateLt { year := 2024, month := 0, day := 5 }
        (periodEnd (getFinancialMonthStart { year := 2024, month := 0, day := 5 } 10))) :=
  ⟨by decide,
    period_start_bounds 10 { year := 2024, month := 0, day := 5 }
      (by decide) (by decide) (by decide) (by decide) (by decide)⟩

/-- C2: when the state holds an expense record with the given id, editExpense
first reverses the old financial effect by crediting the pool named by the
old source with the old amount, then applies the new effect by debiting the
pool named by the new source by the new amount, and replaces the amount,
category, note and source fields of the matching record, leaving ids, dates,
non-matching records and every other component unchanged. -/
theorem editExpense_reverse_then_apply (s : AppState) (id : String) (amount : ℚ)
    (category note : String) (source : MoneySource) (oldExp : ExpenseRecord)
    (h : s.expenses.find? (fun e => e.id == id) = some oldExp) :
    (editExpense s id amount category note source).balance
      = debitPool (creditPool s.balance oldExp.source oldExp.amount) source amount ∧
    (∀ i : Nat, (editExpense s id amount category note source).expenses[i]?
      = Option.map (fun e =>
          if e.id = id then
            { e with amount := amount, category := category, note := note, source := source }
          else e) s.expenses[i]?) ∧
    (editExpense s id amount category note source).fixedExpenses = s.fixedExpenses ∧
    (editExpense s id amount category note source).envelopes = s.envelopes ∧
    (editExpense s id amount category note source).envelopeTransactions = s.envelopeTransactions ∧
    (editExpense s id amount category note source).incomes = s.incomes ∧
    (editExpense s id amount category note source).categories = s.categories ∧
    (editExpense s id amount category note source).settings = s.settings := by
  unfold editExpense
  rw [h]
  refine ⟨?_, ?_, rfl, rfl, rfl, rfl, rfl, rfl⟩
  · cases ho : oldExp.source <;> cases hs : source <;>
      simp [debitPool, creditPool, AccountBalance.get, AccountBalance.update, ho, hs]
  · intro i
    simp [List.getElem?_map]

/-- Witness for C2 on a concrete one-record state: editing the 30 zl bank
expense to a 50 zl cash expense credits bank by 30 and debits cash by 50. -/
theorem editExpense_reverse_then_apply_witness :
    oneExpenseState.expenses.find? (fun e => e.id == "x")
        = some { id := "x", amount := 30, category := "food",
                 date := { year := 2024, month := 0, day := 5 },
                 source := MoneySource.bank, note := "" } ∧
    (editExpense oneExpenseState "x" 50 "food" "" MoneySource.cash).balance
      = debitPool
          (creditPool oneExpenseState.balance MoneySource.bank 30)
          MoneySource.cash 50 :=
  ⟨rfl,
    (editExpense_reverse_then_apply oneExpenseState "x" 50 "food" "" MoneySource.cash
      { id := "x", amount := 30, category := "food",
        date := { year := 2024, month := 0, day := 5 },
        source := MoneySource.bank, note := "" } rfl).1⟩

/-- C3 counterexample: the empty state has no envelope at all, yet
fundEnvelope on the unknown id ghost is not a no-op: it debits the bank pool
and appends an EnvelopeTransaction, so the returned state differs from the
input state. -/
theorem fundEnvelope_unknown_id_not_noop :
    emptyState.envelopes = [] ∧
    fundEnvelope emptyState "t1" jan15 "ghost" 5 MoneySource.bank ≠ emptyState := by
  constructor
  · rfl
  · intro hcontra
    have := congrArg (fun st => st.envelopeTransactions.length) hcontra
    simp [fundEnvelope, emptyState] at this

/-- C3 amended: the seven operations that guard their lookup (editIncome,
deleteIncome, toggleFixed, editEnvelope, deleteEnvelope, editExpense,
deleteExpense) are silent no-ops when no record carries the id, returning
the state unchanged.  fundEnvelope and spendFromEnvelope are not no-ops:
with no matching envelope, fundEnvelope still debits the selected pool and
appends a type in transaction, and spendFromEnvelope still appends a type
out transaction while leaving balances and envelopes unchanged. -/
theorem unknown_id_behaviour (s : AppState) (id newId : String) (now : Date)
    (a alloc tgt : ℚ) (src : MoneySource) (dt : Date) (nm ds cat nt : String)
    (hI : ∀ i ∈ s.incomes, i.id ≠ id)
    (hF : ∀ f ∈ s.fixedExpenses, f.id ≠ id)
    (hE : ∀ e ∈ s.envelopes, e.id ≠ id)
    (hX : ∀ e ∈ s.expenses, e.id ≠ id) :
    editIncome s id a src dt = s ∧
    deleteIncome s id = s ∧
    toggleFixed s id = s ∧
    editEnvelope s id nm ds alloc tgt = s ∧
    deleteEnvelope s id = s ∧
    editExpense s id a cat nt src = s ∧
    deleteExpense s id = s ∧
    fundEnvelope s newId now id a src =
      { s with
        balance := s.balance.update src (s.balance.get src - a),
        envelopeTransactions := s.envelopeTransactions ++
          [{ id := newId, envelopeId := id, type := "in", amount := a, date := now, note := "Zasilenie" }] } ∧
    spendFromEnvelope s newId now id a nt =
      { s with
        envelopeTransactions := s.envelopeTransactions ++
          [{ id := newId, envelopeId := id, type := "out", amount := a, date := now, note := nt }] } := by
  have hIfind : s.incomes.find? (fun i => i.id == id) = none :=
    List.find?_eq_none.mpr (fun x hx => by simpa using hI x hx)
  have hFfind : s.fixedExpenses.find? (fun e => e.id == id) = none :=
    List.find?_eq_none.mpr (fun x hx => by simpa using hF x hx)
  have hEfind : s.envelopes.find? (fun e => e.id == id) = none :=
    List.find?_eq_none.mpr (fun x hx => by simpa using hE x hx)
  have hXfind : s.expenses.find? (fun e => e.id == id) = none :=
    List.find?_eq_none.mpr (fun x hx => by simpa using hX x hx)
  have hEmap : ∀ (g : Envelope → Envelope),
      s.envelopes.map (fun e => if e.id = id then g e else e) = s.envelopes := by
    intro g
    exact map_eq_self_of_fix _ _ (fun e he => by simp [hE e he])
  refine ⟨?_, ?_, ?_, ?_, ?_, ?_, ?_, ?_, ?_⟩
  · unfold editIncome; rw [hIfind]
  · unfold deleteIncome; rw [hIfind]
  · unfold toggleFixed; rw [hFfind]
  · unfold editEnvelope
    rw [hEmap (fun e => { e with name := nm, description := ds, allocated := alloc, targetAmount := tgt })]
  · unfold deleteEnvelope
    rw [hEfind]
    have hfil : s.envelopes.filter (fun e => e.id != id) = s.envelopes :=
      List.filter_eq_self.mpr (fun e he => by simp [hE e he])
    rw [hfil]
    simp
  · unfold editExpense; rw [hXfind]
  · unfold deleteExpense; rw [hXfind]
  · unfold fundEnvelope
    rw [hEmap (fun e => { e with allocated := e.allocated + a })]
  · unfold spendFromEnvelope
    rw [hEmap (fun e => { e with allocated := e.allocated - a })]

/-- Witness for the amended C3 on the empty state with the unknown id ghost:
deleteEnvelope is a no-op there and fundEnvelope produces exactly the
debit-and-append state. -/
theorem unknown_id_behaviour_witness :
    deleteEnvelope emptyState "ghost" = emptyState ∧
    fundEnvelope emptyState "t1" jan15 "ghost" 5 MoneySource.bank =
      { emptyState with
        balance := emptyState.balance.update MoneySource.bank
          (emptyState.balance.get MoneySource.bank - 5),
        envelopeTransactions := emptyState.envelopeTransactions ++
          [{ id := "t1", envelopeId := "ghost", type := "in", amount := 5, date := jan15, note := "Zasilenie" }] } :=
  by
    have h := unknown_id_behaviour emptyState "ghost" "t1" jan15 5 0 0 MoneySource.bank
      jan15 "" "" "" ""
      (fun i hi => by simp [emptyState] at hi)
      (fun f hf => by simp [emptyState] at hf)
      (fun e he => by simp [emptyState] at he)
      (fun e he => by simp [emptyState] at he)
    exact ⟨h.2.2.2.2.1, h.2.2.2.2.2.2.2.1⟩

/-- C4: rollover idempotence.  After one run of the rollover monitor, any
further run whose current date has the same period key as the stored
lastResetDate (under the stored payday) returns the state unchanged, because
the monitor compares period keys rather than raw dates. -/
theorem rollover_idempotent (s : AppState) (now1 now2 : Date)
    (h : getFinancialMonthStart now2 (runRollover s now1).settings.payday
        = getFinancialMonthStart (runRollover s now1).settings.lastResetDate
            (runRollover s now1).settings.payday) :
    runRollover (runRollover s now1) now2 = runRollover s now1 :=
  runRollover_noop (runRollover s now1) now2 h


/-- Witness for C4: the stale state last reset on 2023-12-15 with payday 1
rolls over on 2024-01-15; a second trigger on 2024-01-20, which lies in the
same financial period, leaves the state untouched. -/
theorem rollover_idempotent_witness :
    getFinancialMonthStart jan20 (runRollover staleState jan15).settings.payday
        = getFinancialMonthStart (runRollover staleState jan15).settings.lastResetDate
            (runRollover staleState jan15).settings.payday ∧
    runRollover (runRollover staleState jan15) jan20 = runRollover staleState jan15 :=
  ⟨by decide, rollover_idempotent staleState jan15 jan20 (by decide)⟩

/-- C5 counterexample: in the state whose single envelope e already holds 40
while the bank pool holds 100, funding e with 10 from bank and then deleting
e leaves the bank pool at 140, not at its pre-fund value 100: deleteEnvelope
refunds the whole allocated amount, not just the freshly funded part. -/
theorem fund_delete_not_restoring :
    (deleteEnvelope (fundEnvelope envState "t1" jan15 "e" 10 MoneySource.bank) "e").balance.bank
      ≠ envState.balance.bank := by
  have h1 : (deleteEnvelope (fundEnvelope envState "t1" jan15 "e" 10 MoneySource.bank) "e").balance.bank
      = 140 := by
    simp +decide [deleteEnvelope, fundEnvelope, envState, AccountBalance.get, AccountBalance.update]
    norm_num
  rw [h1]
  have h2 : envState.balance.bank = 100 := rfl
  rw [h2]
  norm_num

/-- C5 amended: funding an existing envelope with X from bank and then
deleting it sets the bank pool to its pre-fund value plus the allocated
amount the envelope held before the funding, because the delete refunds the
whole current allocated to bank unconditionally; the pre-fund bank value is
restored exactly when the envelope held nothing before the funding. -/
theorem fund_delete_refund (s : AppState) (id newId : String) (now : Date)
    (x : ℚ) (env : Envelope)
    (h : s.envelopes.find? (fun e => e.id == id) = some env) :
    (deleteEnvelope (fundEnvelope s newId now id x MoneySource.bank) id).balance.bank
      = s.balance.bank + env.allocated ∧
    (env.allocated = 0 →
      (deleteEnvelope (fundEnvelope s newId now id x MoneySource.bank) id).balance.bank
        = s.balance.bank) := by
  have hid : env.id = id := by simpa using List.find?_some h
  have hfind : ((s.envelopes.map (fun e =>
        if e.id = id then { e with allocated := e.allocated + x } else e)).find?
          (fun e => e.id == id)) = some { env with allocated := env.allocated + x } := by
    have h2 := find?_map_of_id_preserving
      (fun e => if e.id = id then { e with allocated := e.allocated + x } else e)
      (fun e => by by_cases he : e.id = id <;> simp [he]) h
    simpa [hid] using h2
  constructor
  · simp only [deleteEnvelope, fundEnvelope, hfind]
    simp [AccountBalance.get, AccountBalance.update]
  · intro h0
    simp only [deleteEnvelope, fundEnvelope, hfind]
    simp [AccountBalance.get, AccountBalance.update, h0]

/-- Witness for the amended C5 at the concrete envelope state: with 40
already allocated and 100 in bank, fund 10 and delete yields 100 + 40. -/
theorem fund_delete_refund_witness :
    envState.envelopes.find? (fun e => e.id == "e")
        = some { id := "e", name := "Wakacje", description := "", allocated := 40, targetAmount := 0 } ∧
    (deleteEnvelope (fundEnvelope envState "t1" jan15 "e" 10 MoneySource.bank) "e").balance.bank
        = envState.balance.bank + 40 :=
  ⟨rfl,
    (fund_delete_refund envState "e" "t1" jan15 10
      { id := "e", name := "Wakacje", description := "", allocated := 40, targetAmount := 0 } rfl).1⟩

/-- C6: spendFromEnvelope leaves both balance pools untouched, rewrites only
the envelopes whose id matches (subtracting the amount from allocated, with
no floor), appends exactly one EnvelopeTransaction of type out carrying the
spent amount, and changes nothing else. -/
theorem spendFromEnvelope_frame (s : AppState) (newId id note : String) (now : Date)
    (amount : ℚ) (hpos : 0 < amount) :
    (spendFromEnvelope s newId now id amount note).balance.bank = s.balance.bank ∧
    (spendFromEnvelope s newId now id amount note).balance.cash = s.balance.cash ∧
    (∀ i : Nat, (spendFromEnvelope s newId now id amount note).envelopes[i]?
      = Option.map (fun e =>
          if e.id = id then { e with allocated := e.allocated - amount } else e)
          s.envelopes[i]?) ∧
    (spendFromEnvelope s newId now id amount note).envelopeTransactions
      = s.envelopeTransactions ++
        [{ id := newId, envelopeId := id, type := "out", amount := amount, date := now, note := note }] ∧
    (spendFromEnvelope s newId now id amount note).fixedExpenses = s.fixedExpenses ∧
    (spendFromEnvelope s newId now id amount note).expenses = s.expenses ∧
    (spendFromEnvelope s newId now id amount note).incomes = s.incomes ∧
    (spendFromEnvelope s newId now id amount note).categories = s.categories ∧
    (spendFromEnvelope s newId now id amount note).settings = s.settings := by
  refine ⟨rfl, rfl, ?_, rfl, rfl, rfl, rfl, rfl, rfl⟩
  intro i
  simp [spendFromEnvelope, List.getElem?_map]

/-- Witness for C6: spending 15 from the envelope e of the concrete state
leaves both pools at their previous values. -/
theorem spendFromEnvelope_frame_witness :
    (0 : ℚ) < 15 ∧
    (spendFromEnvelope envState "t2" jan15 "e" 15 "prezent").balance.bank
        = envState.balance.bank ∧
    (spendFromEnvelope envState "t2" jan15 "e" 15 "prezent").balance.cash
        = envState.balance.cash :=
  ⟨by decide,
    (spendFromEnvelope_frame envState "t2" "e" "prezent" jan15 15 (by decide)).1,
    (spendFromEnvelope_frame envState "t2" "e" "prezent" jan15 15 (by decide)).2.1⟩

/-- C7 counterexample: on 2024-01-15 with payday 1 the stale state (last
reset during the December 2023 period) rolls over: the state changes, yet the
stored lastResetDate is the raw current date 2024-01-15 and not the period
start 2024-01-01 of the period in which the rollover occurred. -/
theorem rollover_stores_now_not_period_start :
    runRollover staleState jan15 ≠ staleState ∧
    (runRollover staleState jan15).settings.lastResetDate
      ≠ getFinancialMonthStart jan15 staleState.settings.payday := by
  constructor
  · intro hcontra
    have := congrArg (fun st => st.settings.lastResetDate) hcontra
    simp [runRollover, staleState, jan15, getFinancialMonthStart] at this
  · decide

/-- C7 amended: whenever the rollover monitor fires (the period key of the
current date differs from the period key of the stored lastResetDate), it
stores the raw current date as the new lastResetDate; that date lies in the
current financial period, so its period key equals the period key of the
current period start, but it is the period start itself only when the
current day happens to be the payday anchor. -/
theorem rollover_sets_lastResetDate_to_now (s : AppState) (now : Date)
    (hfire : getFinancialMonthStart now s.settings.payday
        ≠ getFinancialMonthStart s.settings.lastResetDate s.settings.payday) :
    (runRollover s now).settings.lastResetDate = now ∧
    getFinancialMonthStart (runRollover s now).settings.lastResetDate
        (runRollover s now).settings.payday
      = getFinancialMonthStart now s.settings.payday := by
  constructor
  · simp [runRollover, hfire]
  · simp [runRollover, hfire]

/-- Witness for the amended C7 at the stale state and 2024-01-15. -/
theorem rollover_sets_lastResetDate_to_now_witness :
    getFinancialMonthStart jan15 staleState.settings.payday
        ≠ getFinancialMonthStart staleState.settings.lastResetDate staleState.settings.payday ∧
    (runRollover staleState jan15).settings.lastResetDate = jan15 :=
  ⟨by decide, (rollover_sets_lastResetDate_to_now staleState jan15 (by decide)).1⟩

/-- C8: whenever at least one day of the current period has elapsed, the
linear forecast of the Reports view equals the sum of the current period
expenses divided by the days elapsed since the period start, multiplied by
the fixed nominal period length of 30 days, regardless of the true length of
the payday-anchored period. -/
theorem linear_forecast_formula (expenses : List ExpenseRecord) (payday : Nat) (now : Date)
    (h : 0 < daysSinceStart payday now) :
    projectedTotal expenses payday now
      = specLinearForecast (totalCurrentMonth expenses payday now) (daysSinceStart payday now) := by
  simp [projectedTotal, dailyAverage, specLinearForecast, daysInMonth, h]

/-- Witness for C8: with payday 10 on 2024-01-15 the period started on
2024-01-10, six days have elapsed, and the forecast over a single 12 zl
expense equals the spec formula. -/
theorem linear_forecast_formula_witness :
    (0 : Int) < daysSinceStart 10 jan15 ∧
    projectedTotal
        [{ id := "x", amount := 12, category := "food",
           date := { year := 2024, month := 0, day := 12 },
           source := MoneySource.bank, note := "" }] 10 jan15
      = specLinearForecast
          (totalCurrentMonth
            [{ id := "x", amount := 12, category := "food",
               date := { year := 2024, month := 0, day := 12 },
               source := MoneySource.bank, note := "" }] 10 jan15)
          (daysSinceStart 10 jan15) :=
  ⟨by decide,
    linear_forecast_formula
      [{ id := "x", amount := 12, category := "food",
         date := { year := 2024, month := 0, day := 12 },
         source := MoneySource.bank, note := "" }] 10 jan15 (by decide)⟩

/-- C9 counterexample: the duplicate-id state holds two envelopes named by
the id e; funding e with 5 from bank debits the pool once but credits both
envelopes, raising the total money from 10 to 15. -/
theorem fund_duplicate_ids_not_conserving :
    dupState.envelopes.countP (fun e => e.id == "e") = 2 ∧
    totalMoney (fundEnvelope dupState "t1" jan15 "e" 5 MoneySource.bank) = 15 ∧
    totalMoney dupState = 10 := by
  refine ⟨by decide, ?_, ?_⟩
  · simp +decide [totalMoney, fundEnvelope, dupState, AccountBalance.get, AccountBalance.update]
    norm_num
  · simp [totalMoney, dupState]

/-- C9 amended: when exactly one envelope of the state carries the given id
(in particular whenever envelope ids are distinct), fundEnvelope preserves
the total money bank + cash + sum of all allocations, for every amount and
source: funding moves money between pools without creating or destroying
it.  With k matching envelopes the total would grow by (k - 1) times the
amount, as the counterexample shows for k = 2. -/
theorem fundEnvelope_conserves_total (s : AppState) (newId id : String) (now : Date)
    (x : ℚ) (src : MoneySource)
    (h : s.envelopes.countP (fun e => e.id == id) = 1) :
    totalMoney (fundEnvelope s newId now id x src) = totalMoney s := by
  unfold totalMoney fundEnvelope
  simp only [alloc_sum_map_add s.envelopes id x, h]
  cases src <;> simp [AccountBalance.get, AccountBalance.update] <;> ring

/-- Witness for the amended C9: the single-envelope state conserves its total
140 when the envelope is funded with 25 from cash. -/
theorem fundEnvelope_conserves_total_witness :
    envState.envelopes.countP (fun e => e.id == "e") = 1 ∧
    totalMoney (fundEnvelope envState "t1" jan15 "e" 25 MoneySource.cash) = totalMoney envState :=
  ⟨by decide, fundEnvelope_conserves_total envState "t1" "e" jan15 25 MoneySource.cash (by decide)⟩

/-- C10: addExpense debits exactly the pool named by the source by the
amount, leaves the other pool unchanged, prepends exactly one new expense
record carrying the given fields, and leaves fixed expenses, envelopes, the
envelope transaction log, incomes, categories and settings unchanged. -/
theorem addExpense_frame (s : AppState) (newId : String) (now : Date) (amount : ℚ)
    (category note : String) (source : MoneySource) :
    (addExpense s newId now amount category note source).balance.get source
        = s.balance.get source - amount ∧
    (addExpense s newId now amount category note source).balance.get source.other
        = s.balance.get source.other ∧
    (addExpense s newId now amount category note source).expenses
        = { id := newId, amount := amount, category := category,
            date := now, source := source, note := note } :: s.expenses ∧
    (addExpense s newId now amount category note source).fixedExpenses = s.fixedExpenses ∧
    (addExpense s newId now amount category note source).envelopes = s.envelopes ∧
    (addExpense s newId now amount category note source).envelopeTransactions
        = s.envelopeTransactions ∧
    (addExpense s newId now amount category note source).incomes = s.incomes ∧
    (addExpense s newId now amount category note source).categories = s.categories ∧
    (addExpense s newId now amount category note source).settings = s.settings := by
  cases source <;> exact ⟨rfl, rfl, rfl, rfl, rfl, rfl, rfl, rfl, rfl⟩
